import Mathlib

/-!
Shallow embedding of the calisthenics training app core logic
(plan generator, session scoring, recommendation engine, reduction
suggestions and the save-session progression controller) from
src/src/App.jsx, together with theorems checking the natural-language
specification against it.

Modelling conventions: JavaScript numbers that only ever hold small
integers or exact decimal literals are modelled as Nat / Int / Rat as
appropriate; JavaScript objects used as string-keyed maps are modelled
as association lists with first-match lookup; `undefined` / missing
fields are modelled with Option.
-/

namespace Calistenia

/-- JS `clamp(n, a, b) = Math.max(a, Math.min(b, n))` from App.jsx, on rationals. -/
def clamp (n a b : ℚ) : ℚ := max a (min b n)

/-- The same `clamp` applied to natural-number arguments (week numbers). -/
def clampN (n a b : ℕ) : ℕ := max a (min b n)

/-- `isDeloadWeek(week)`: weeks 8 and 16 are deload weeks. -/
def isDeloadWeek (week : ℕ) : Bool := week == 8 || week == 16

/-- `setsForWeek(week)`: base 2 sets, 3 from week 5, 4 from week 13,
one less (floored at 2) on deload weeks. -/
def setsForWeek (week : ℕ) : ℕ :=
  let s1 : ℕ := 2
  let s2 : ℕ := if week ≥ 5 then 3 else s1
  let s3 : ℕ := if week ≥ 13 then 4 else s2
  if isDeloadWeek week then max 2 (s3 - 1) else s3

/-- `repsForWeek(week, baseReps)`: base plus `floor((week-1)/2)`, with
`max(4, reps - 2)` on deload weeks.  The week is a clamped value in
[1,20] at every call site, so natural subtraction `week - 1` agrees
with JS arithmetic there. -/
def repsForWeek (week : ℕ) (baseReps : ℤ) : ℤ :=
  let add : ℤ := ((week - 1) / 2 : ℕ)
  let reps : ℤ := baseReps + add
  if isDeloadWeek week then max 4 (reps - 2) else reps

/-- `secondsForWeek(week, baseSeconds)`: base plus `floor((week-1)/2)*5`,
with `max(10, s - 10)` on deload weeks. -/
def secondsForWeek (week : ℕ) (baseSeconds : ℤ) : ℤ :=
  let add : ℤ := ((week - 1) / 2 : ℕ) * 5
  let s : ℤ := baseSeconds + add
  if isDeloadWeek week then max 10 (s - 10) else s

/-- Measurement kind of a session item: non-measured block, repetition
item (`"reps"`), or duration item (`"time"`). -/
inductive ItemType where
  | block
  | reps
  | time
  deriving DecidableEq, Repr

/-- One line of a session.  Block items carry no targets (their `sets`
and `reps` fields are `undefined` in the source, hence `none` here). -/
structure SessionItem where
  type : ItemType
  exerciseId : String
  sets : Option ℚ
  reps : Option ℚ
  unit : String
  rest : String
  deriving DecidableEq, Repr

/-- A session: day id, title, ordered item list. -/
structure Session where
  id : String
  title : String
  items : List SessionItem
  deriving DecidableEq, Repr

/-- A generated week plan: week number, base set count, sessions A-D. -/
structure WeekPlan where
  week : ℕ
  sets : ℕ
  sessions : List Session
  deriving DecidableEq, Repr

/-- `buildWeekPlan(week)` from App.jsx: the four fixed session templates
with week-dependent numeric targets. -/
def buildWeekPlan (week : ℕ) : WeekPlan :=
  let sets := setsForWeek week
  let pushReps := repsForWeek week 6
  let squatReps := repsForWeek week 8
  let rowReps := repsForWeek week 5
  let bridgeReps := repsForWeek week 10
  let deadBugReps := repsForWeek week 6
  let stepUpReps := repsForWeek week 8
  let calfReps := repsForWeek week 10
  let scapReps := repsForWeek week 8
  let plankSec := secondsForWeek week 20
  let marchMin : ℤ := max 8 (min 20 (8 + (((week - 1) / 2 : ℕ) : ℤ)))
  let marchMinDeload : ℤ := max 6 (marchMin - 4)
  let march : SessionItem :=
    { type := .time, exerciseId := "marchInPlace", sets := some 1,
      reps := some ((if isDeloadWeek week then marchMinDeload else marchMin : ℤ) : ℚ),
      unit := "min", rest := "—" }
  let warm : SessionItem :=
    { type := .block, exerciseId := "warmup", sets := none, reps := none,
      unit := "", rest := "" }
  let cool : SessionItem :=
    { type := .block, exerciseId := "cooldown", sets := none, reps := none,
      unit := "", rest := "" }
  let A : Session :=
    { id := "A", title := "Empuje + Core",
      items :=
        [ warm,
          { type := .reps, exerciseId := "scapularPushUp",
            sets := some ((max 2 (sets - 1) : ℕ) : ℚ), reps := some (scapReps : ℚ),
            unit := "reps", rest := "45–60s" },
          { type := .reps, exerciseId := "inclinePushUp",
            sets := some (sets : ℚ), reps := some (pushReps : ℚ),
            unit := "reps", rest := "60–90s" },
          { type := .reps, exerciseId := "gluteBridge",
            sets := some (sets : ℚ), reps := some (bridgeReps : ℚ),
            unit := "reps", rest := "60s" },
          { type := .reps, exerciseId := "deadBug",
            sets := some (sets : ℚ), reps := some (deadBugReps : ℚ),
            unit := "reps/lado", rest := "45–60s" },
          { type := .time, exerciseId := "plank",
            sets := some (sets : ℚ), reps := some (plankSec : ℚ),
            unit := "s", rest := "45–60s" },
          cool ] }
  let B : Session :=
    { id := "B", title := "Pierna + Tirón",
      items :=
        [ warm,
          { type := .reps, exerciseId := "chairSquat",
            sets := some (sets : ℚ), reps := some (squatReps : ℚ),
            unit := "reps", rest := "60–90s" },
          { type := .reps, exerciseId := "stepUp",
            sets := some (sets : ℚ), reps := some (stepUpReps : ℚ),
            unit := "reps/lado", rest := "60–90s" },
          { type := .reps, exerciseId := "tableRow",
            sets := some (sets : ℚ), reps := some (rowReps : ℚ),
            unit := "reps", rest := "60–90s" },
          { type := .reps, exerciseId := "calfRaise",
            sets := some ((max 2 (sets - 1) : ℕ) : ℚ), reps := some (calfReps : ℚ),
            unit := "reps", rest := "45–60s" },
          march,
          cool ] }
  let C : Session :=
    { id := "C", title := "Full body (técnica)",
      items :=
        [ warm,
          { type := .reps, exerciseId := "inclinePushUp",
            sets := some ((max 2 (sets - 1) : ℕ) : ℚ), reps := some ((max 4 (pushReps - 1) : ℤ) : ℚ),
            unit := "reps", rest := "60–90s" },
          { type := .reps, exerciseId := "chairSquat",
            sets := some ((max 2 (sets - 1) : ℕ) : ℚ), reps := some ((max 6 (squatReps - 2) : ℤ) : ℚ),
            unit := "reps", rest := "60–90s" },
          { type := .reps, exerciseId := "tableRow",
            sets := some ((max 2 (sets - 1) : ℕ) : ℚ), reps := some ((max 4 (rowReps - 1) : ℤ) : ℚ),
            unit := "reps", rest := "60–90s" },
          { type := .reps, exerciseId := "deadBug",
            sets := some ((max 2 (sets - 1) : ℕ) : ℚ), reps := some ((max 5 (deadBugReps - 1) : ℤ) : ℚ),
            unit := "reps/lado", rest := "45–60s" },
          { type := .time, exerciseId := "plank",
            sets := some ((max 2 (sets - 1) : ℕ) : ℚ), reps := some ((max 15 (plankSec - 5) : ℤ) : ℚ),
            unit := "s", rest := "45–60s" },
          cool ] }
  let D : Session :=
    { id := "D", title := "Tirón + Core + Suave",
      items :=
        [ warm,
          { type := .reps, exerciseId := "tableRow",
            sets := some (sets : ℚ), reps := some (rowReps : ℚ),
            unit := "reps", rest := "60–90s" },
          { type := .reps, exerciseId := "gluteBridge",
            sets := some ((max 2 (sets - 1) : ℕ) : ℚ), reps := some (bridgeReps : ℚ),
            unit := "reps", rest := "60s" },
          { type := .reps, exerciseId := "deadBug",
            sets := some (sets : ℚ), reps := some (deadBugReps : ℚ),
            unit := "reps/lado", rest := "45–60s" },
          { type := .time, exerciseId := "plank",
            sets := some (sets : ℚ), reps := some (plankSec : ℚ),
            unit := "s", rest := "45–60s" },
          march,
          cool ] }
  { week := week, sets := sets, sessions := [A, B, C, D] }

/-- `getPlan20Weeks()`: the 20 generated week plans, weeks 1 to 20. -/
def getPlan20Weeks : List WeekPlan :=
  (List.range 20).map (fun i => buildWeekPlan (i + 1))

/-- A recorded actual for one item of the in-progress draft
(`{ setsDone, repsDone, notes }`; every field may be absent). -/
structure Actual where
  setsDone : Option ℚ
  repsDone : Option ℚ
  notes : Option String
  deriving DecidableEq, Repr

/-- A (custom) target record `{ sets, reps }`; fields may be absent. -/
structure Target where
  sets : Option ℚ
  reps : Option ℚ
  deriving DecidableEq, Repr

/-- The item key "exerciseId:idx" used for actuals, targets and
suggestions. -/
def itemKeyOf (it : SessionItem) (idx : ℕ) : String :=
  it.exerciseId ++ ":" ++ toString idx

/-- `Math.max(1, Number(t.sets ?? it.sets ?? 1))` where
`t = targetsByItemId[itemKey] ?? { sets: it.sets, reps: it.reps }`. -/
def effTargetSets (it : SessionItem) (t : Option Target) : ℚ :=
  max 1 ((match t with | some tv => tv.sets | none => it.sets).getD (it.sets.getD 1))

/-- `Math.max(1, Number(t.reps ?? it.reps ?? 1))`, same fallback chain. -/
def effTargetReps (it : SessionItem) (t : Option Target) : ℚ :=
  max 1 ((match t with | some tv => tv.reps | none => it.reps).getD (it.reps.getD 1))

/-- Result of `scoreSession`: compliance fraction and final score. -/
structure ScoreResult where
  pct : ℚ
  score : ℚ
  deriving DecidableEq, Repr

/-- The per-item contribution inside `scoreSession`:
`0.5 * setsRatio + 0.5 * repsRatio` with clamped ratios, missing
actuals read as 0 and actuals floored at 0. -/
def itemScoreOf (actualByItemId : List (String × Actual))
    (targetsByItemId : List (String × Target)) (idx : ℕ) (it : SessionItem) : ℚ :=
  let key := itemKeyOf it idx
  let a := List.lookup key actualByItemId
  let t := List.lookup key targetsByItemId
  let targetSets := effTargetSets it t
  let targetReps := effTargetReps it t
  let setsDone : ℚ := max 0 ((a.bind Actual.setsDone).getD 0)
  let repsDone : ℚ := max 0 ((a.bind Actual.repsDone).getD 0)
  let sr := clamp (setsDone / targetSets) 0 1
  let rr := clamp (repsDone / targetReps) 0 1
  0.5 * sr + 0.5 * rr

/-- `scoreSession({items, actualByItemId, targetsByItemId, rpe})`:
fold over the items (skipping blocks) accumulating a count and a sum of
item scores, then `pct = sum/total` (0 when no measured item) and
`score = clamp(pct - rpePenalty, 0, 1)`. -/
def scoreSession (items : List SessionItem) (actualByItemId : List (String × Actual))
    (targetsByItemId : List (String × Target)) (rpe : ℚ) : ScoreResult :=
  let acc := items.enum.foldl
    (fun (acc : ℕ × ℚ) p =>
      if p.2.type = ItemType.block then acc
      else (acc.1 + 1, acc.2 + itemScoreOf actualByItemId targetsByItemId p.1 p.2))
    (0, 0)
  let pct := if acc.1 = 0 then 0 else acc.2 / (acc.1 : ℚ)
  let rpePenalty : ℚ := if rpe ≥ 9 then 0.2 else if rpe ≥ 8 then 0.1 else 0
  let score := clamp (pct - rpePenalty) 0 1
  { pct := pct, score := score }

/-- Recommendation level: advance, hold, or reduce. -/
inductive Level where
  | advance
  | hold
  | reduce
  deriving DecidableEq, Repr

/-- The string stored in a log's `recommendation` field. -/
def Level.str : Level → String
  | .advance => "advance"
  | .hold => "hold"
  | .reduce => "reduce"

/-- `recommendationFromScore(scoreObj)`: `{level, label}`. -/
structure Recommendation where
  level : Level
  label : String
  deriving DecidableEq, Repr

/-- `recommendationFromScore`: advance at score ≥ 0.8, hold at ≥ 0.55,
reduce below. -/
def recommendationFromScore (scoreObj : ScoreResult) : Recommendation :=
  if scoreObj.score ≥ 0.8 then ⟨.advance, "Avanza"⟩
  else if scoreObj.score ≥ 0.55 then ⟨.hold, "Mantén"⟩
  else ⟨.reduce, "Repite más fácil"⟩

/-- `exerciseLibrary[id].title` for the ids that occur in the plan. -/
def exerciseTitle : String → Option String
  | "warmup" => some "Calentamiento (5–7 min)"
  | "cooldown" => some "Vuelta a la calma (3–5 min)"
  | "inclinePushUp" => some "Flexiones inclinadas"
  | "chairSquat" => some "Sentadilla a silla"
  | "tableRow" => some "Remo bajo mesa (inverted row)"
  | "gluteBridge" => some "Puente de glúteo"
  | "deadBug" => some "Dead bug"
  | "plank" => some "Plancha"
  | "stepUp" => some "Step-ups"
  | "calfRaise" => some "Elevación de gemelos"
  | "scapularPushUp" => some "Flexión escapular"
  | "marchInPlace" => some "Marcha en el sitio (zona 2 suave)"
  | _ => none

/-- A `{sets, reps, unit}` triple as carried in a suggestion
(the JS `from` / `to` fields). -/
structure TargetPair where
  sets : ℚ
  reps : ℚ
  unit : String
  deriving DecidableEq, Repr

/-- One reduction proposal pushed by `suggestReduction`.  The JS fields
`from` and `to` are named `fromT` and `toT` here (`from` is reserved). -/
structure Suggestion where
  itemKey : String
  exerciseId : String
  title : String
  fromT : TargetPair
  toT : TargetPair
  deriving DecidableEq, Repr

/-- The body of the `suggestReduction` loop for the item at index `idx`:
`none` when the item is a block or when neither target changes,
otherwise the proposal that the loop pushes. -/
def reduceProposalFor (actualByItemId : List (String × Actual))
    (targetsByItemId : List (String × Target)) (idx : ℕ) (it : SessionItem) :
    Option Suggestion :=
  if it.type = ItemType.block then none
  else
    let key := itemKeyOf it idx
    let a := List.lookup key actualByItemId
    let t := List.lookup key targetsByItemId
    let targetSets := effTargetSets it t
    let targetReps := effTargetReps it t
    let setsDone : ℚ := (a.bind Actual.setsDone).getD 0
    let repsDone : ℚ := (a.bind Actual.repsDone).getD 0
    let newSets := if a = none ∨ setsDone < targetSets then max 1 (targetSets - 1) else targetSets
    let newReps :=
      if a = none ∨ repsDone < targetReps then
        if it.type = ItemType.time then
          max 1 (targetReps - (if it.unit = "min" then 1 else 5))
        else max 1 (targetReps - 2)
      else targetReps
    if newSets = targetSets ∧ newReps = targetReps then none
    else some
      { itemKey := key, exerciseId := it.exerciseId,
        title := (exerciseTitle it.exerciseId).getD it.exerciseId,
        fromT := ⟨targetSets, targetReps, it.unit⟩,
        toT := ⟨newSets, newReps, it.unit⟩ }

/-- `suggestReduction({items, actualByItemId, targetsByItemId})`: one
proposal per item for which the loop body pushes one, in item order. -/
def suggestReduction (items : List SessionItem) (actualByItemId : List (String × Actual))
    (targetsByItemId : List (String × Target)) : List Suggestion :=
  items.enum.filterMap (fun p => reduceProposalFor actualByItemId targetsByItemId p.1 p.2)

/-- The `DAYS` constant: day ids A-D with display names. -/
def DAYS : List (String × String) :=
  [("A", "Día 1"), ("B", "Día 2"), ("C", "Día 3"), ("D", "Día 4")]

/-- The persisted app state: current week, current day id, and the
automatic-progression toggle. -/
structure AppState where
  week : ℕ
  dayId : String
  smartProgression : Bool
  deriving DecidableEq, Repr

/-- The in-progress session draft. -/
structure Draft where
  actualByItemId : List (String × Actual)
  rpe : ℚ
  completed : Bool
  date : String
  deriving DecidableEq, Repr

/-- The payload stored in the log at save time. -/
structure LogEntry where
  id : String
  createdAt : String
  date : String
  week : ℕ
  dayId : String
  sessionTitle : String
  rpe : ℚ
  score : ℚ
  pct : ℚ
  recommendation : String
  actualByItemId : List (String × Actual)
  completed : Bool
  deriving DecidableEq, Repr

/-- The logs record: most-recent-first id order plus id-keyed entries. -/
structure Logs where
  order : List String
  byId : List (String × LogEntry)
  deriving DecidableEq, Repr

/-- The full mutable state touched by `saveSession`. -/
structure FullState where
  appState : AppState
  customTargets : List (String × Target)
  logs : Logs
  draft : Draft
  deriving DecidableEq, Repr

/-- JS object spread update `{...m, [k]: v}`, as far as key lookup is
concerned: bind `k` to `v`, keep every other key's binding. -/
def objSet {α : Type} (m : List (String × α)) (k : String) (v : α) : List (String × α) :=
  (k, v) :: m.filter (fun p => p.1 ≠ k)

/-- `targetPath(week, dayId, itemKey)`: the composite custom-target key. -/
def targetPath (week : ℕ) (dayId : String) (key : String) : String :=
  toString week ++ "-" ++ dayId ++ "-" ++ key

/-- The `targetsByItemId` memo: for every measured item, its effective
target record, a custom override field winning over the plan value. -/
def computeTargetsByItemId (items : List SessionItem) (week : ℕ) (dayId : String)
    (customTargets : List (String × Target)) : List (String × Target) :=
  items.enum.filterMap (fun p =>
    if p.2.type = ItemType.block then none
    else
      let key := itemKeyOf p.2 p.1
      let ct := List.lookup (targetPath week dayId key) customTargets
      some (key,
        { sets := (ct.bind Target.sets).orElse (fun _ => p.2.sets),
          reps := (ct.bind Target.reps).orElse (fun _ => p.2.reps) }))

/-- `plan.find(w => w.week === appState.week) ?? plan[0]`. -/
def planFind (week : ℕ) : WeekPlan :=
  (getPlan20Weeks.find? (fun wp => wp.week = week)).getD (buildWeekPlan 1)

/-- `weekObj.sessions.find(s => s.id === appState.dayId) ?? weekObj.sessions[0]`. -/
def sessionFind (wp : WeekPlan) (dayId : String) : Session :=
  (wp.sessions.find? (fun s => s.id = dayId)).getD (wp.sessions.getD 0 ⟨"A", "", []⟩)

/-- The session currently shown for an app state. -/
def sessionOf (st : AppState) : Session :=
  sessionFind (planFind st.week) st.dayId

/-- The `targetsByItemId` memo evaluated on the current state. -/
def targetsOf (fs : FullState) : List (String × Target) :=
  computeTargetsByItemId (sessionOf fs.appState).items fs.appState.week fs.appState.dayId
    fs.customTargets

/-- The `scoreObj` memo evaluated on the current state. -/
def scoreOf (fs : FullState) : ScoreResult :=
  scoreSession (sessionOf fs.appState).items fs.draft.actualByItemId (targetsOf fs)
    fs.draft.rpe

/-- The `rec` memo evaluated on the current state. -/
def recOf (fs : FullState) : Recommendation :=
  recommendationFromScore (scoreOf fs)

/-- The `reduceSuggestions` memo: suggestions only when the current
recommendation is reduce, else the empty list. -/
def reduceSuggestionsOf (fs : FullState) : List Suggestion :=
  if (recOf fs).level = Level.reduce then
    suggestReduction (sessionOf fs.appState).items fs.draft.actualByItemId (targetsOf fs)
  else []

/-- `applySuggestions(suggestions)`: write each proposal's `to` pair
into the custom-target map at the current week/day path. -/
def applySuggestions (week : ℕ) (dayId : String) (suggestions : List Suggestion)
    (customTargets : List (String × Target)) : List (String × Target) :=
  suggestions.foldl
    (fun m sug =>
      objSet m (targetPath week dayId sug.itemKey)
        { sets := some sug.toT.sets, reps := some sug.toT.reps })
    customTargets

/-- `DAYS.findIndex(d => d.id === dayId)` (-1 when absent, as in JS). -/
def findDayIdx (dayId : String) : ℤ :=
  match DAYS.findIdx? (fun d => d.1 = dayId) with
  | some i => i
  | none => -1

/-- `DAYS[i].id` for the indices reachable in `saveSession`. -/
def dayIdAt (i : ℤ) : String :=
  (DAYS.getD i.toNat ("A", "")).1

/-- `saveSession()` as a pure state transition.  The generated log id,
the creation timestamp, and today's date are parameters (`uid()`,
`new Date().toISOString()` and `todayISO()` in the source). -/
def saveSession (fs : FullState) (newId createdAt today : String) : FullState :=
  let recm := recOf fs
  let suggestionsToApply := if recm.level = Level.reduce then reduceSuggestionsOf fs else []
  let customTargets1 :=
    if fs.appState.smartProgression ∧ recm.level = Level.reduce ∧ suggestionsToApply ≠ [] then
      applySuggestions fs.appState.week fs.appState.dayId suggestionsToApply fs.customTargets
    else fs.customTargets
  let scoreObj := scoreOf fs
  let payload : LogEntry :=
    { id := newId, createdAt := createdAt, date := fs.draft.date,
      week := fs.appState.week, dayId := fs.appState.dayId,
      sessionTitle := (sessionOf fs.appState).title, rpe := fs.draft.rpe,
      score := scoreObj.score, pct := scoreObj.pct,
      recommendation := recm.level.str,
      actualByItemId := fs.draft.actualByItemId, completed := true }
  let logs1 : Logs :=
    { order := newId :: fs.logs.order, byId := objSet fs.logs.byId newId payload }
  let appState1 :=
    if fs.appState.smartProgression then
      match recm.level with
      | .advance =>
          let idx := findDayIdx fs.appState.dayId
          if idx < (DAYS.length : ℤ) - 1 then { fs.appState with dayId := dayIdAt (idx + 1) }
          else { fs.appState with week := clampN (fs.appState.week + 1) 1 20, dayId := "A" }
      | .hold =>
          let idx := findDayIdx fs.appState.dayId
          if idx < (DAYS.length : ℤ) - 1 then { fs.appState with dayId := dayIdAt (idx + 1) }
          else { fs.appState with dayId := "A" }
      | .reduce => fs.appState
    else fs.appState
  { appState := appState1, customTargets := customTargets1, logs := logs1,
    draft := { actualByItemId := [], rpe := 7, completed := false, date := today } }

/-! ## Spec-side definitions (written from the specification wording,
for comparison with the source-derived definitions) -/

/-- The per-item contribution as the spec words it (C1): `setsRatio =
clamp(actualSets/targetSets, 0, 1)` and `repsRatio =
clamp(actualReps/targetReps, 0, 1)` with a missing actual treated as 0,
and the contribution the unweighted average of the two ratios. -/
def specContribution (actualByItemId : List (String × Actual))
    (targetsByItemId : List (String × Target)) (idx : ℕ) (it : SessionItem) : ℚ :=
  let key := itemKeyOf it idx
  let a := List.lookup key actualByItemId
  let t := List.lookup key targetsByItemId
  let actualSets : ℚ := (a.bind Actual.setsDone).getD 0
  let actualReps : ℚ := (a.bind Actual.repsDone).getD 0
  (clamp (actualSets / effTargetSets it t) 0 1
    + clamp (actualReps / effTargetReps it t) 0 1) / 2

/-- The scoring algorithm as the spec words it (C1): `compliancePct` is
the arithmetic mean of the contributions over all measured items (0 when
there are none), the penalty is 0.20 at effort ≥ 9, 0.10 at 8 ≤ effort
< 9, else 0, and `score = clamp(compliancePct - penalty, 0, 1)`. -/
def specScoreSession (items : List SessionItem) (actualByItemId : List (String × Actual))
    (targetsByItemId : List (String × Target)) (effort : ℚ) : ScoreResult :=
  let contribs := (items.enum.filter (fun p => p.2.type ≠ ItemType.block)).map
    (fun p => specContribution actualByItemId targetsByItemId p.1 p.2)
  let pct := if contribs = [] then 0 else contribs.sum / (contribs.length : ℚ)
  let penalty : ℚ := if 9 ≤ effort then 0.2 else if 8 ≤ effort then 0.1 else 0
  ⟨pct, clamp (pct - penalty) 0 1⟩

/-- The actual record `suggestReduction` reads for the item at `idx`. -/
def actualAt (a : List (String × Actual)) (idx : ℕ) (it : SessionItem) : Option Actual :=
  List.lookup (itemKeyOf it idx) a

/-- The effective target sets `suggestReduction` compares against. -/
def effSetsAt (t : List (String × Target)) (idx : ℕ) (it : SessionItem) : ℚ :=
  effTargetSets it (List.lookup (itemKeyOf it idx) t)

/-- The effective target reps `suggestReduction` compares against. -/
def effRepsAt (t : List (String × Target)) (idx : ℕ) (it : SessionItem) : ℚ :=
  effTargetReps it (List.lookup (itemKeyOf it idx) t)

/-- `Number(a?.setsDone ?? 0)` for the item at `idx`. -/
def setsDoneAt (a : List (String × Actual)) (idx : ℕ) (it : SessionItem) : ℚ :=
  ((actualAt a idx it).bind Actual.setsDone).getD 0

/-- `Number(a?.repsDone ?? 0)` for the item at `idx`. -/
def repsDoneAt (a : List (String × Actual)) (idx : ℕ) (it : SessionItem) : ℚ :=
  ((actualAt a idx it).bind Actual.repsDone).getD 0

/-- The item at `idx` under-performed on sets: no actual record at all,
or recorded sets below the effective target sets. -/
def underSets (a : List (String × Actual)) (t : List (String × Target))
    (idx : ℕ) (it : SessionItem) : Prop :=
  actualAt a idx it = none ∨ setsDoneAt a idx it < effSetsAt t idx it

/-- The item at `idx` under-performed on reps/duration. -/
def underReps (a : List (String × Actual)) (t : List (String × Target))
    (idx : ℕ) (it : SessionItem) : Prop :=
  actualAt a idx it = none ∨ repsDoneAt a idx it < effRepsAt t idx it

instance underSets_dec (a : List (String × Actual)) (t : List (String × Target))
    (idx : ℕ) (it : SessionItem) : Decidable (underSets a t idx it) := by
  unfold underSets; exact inferInstance

instance underReps_dec (a : List (String × Actual)) (t : List (String × Target))
    (idx : ℕ) (it : SessionItem) : Decidable (underReps a t idx it) := by
  unfold underReps; exact inferInstance

/-- The reduction step for the rep/duration target: 1 for time items in
minutes, 5 for time items in other units, 2 for repetition items. -/
def repDelta (it : SessionItem) : ℚ :=
  if it.type = ItemType.time then (if it.unit = "min" then 1 else 5) else 2

/-- A single measured repetition item with target 3 sets of 10 reps,
used in the scoring examples. -/
def exItem : SessionItem :=
  { type := .reps, exerciseId := "inclinePushUp", sets := some 3, reps := some 10,
    unit := "reps", rest := "60–90s" }

/-- The item key of `exItem` at index 0. -/
def exKey : String := itemKeyOf exItem 0

/-- Draft actuals meeting the target of `exItem` exactly. -/
def exActFull : List (String × Actual) := [(exKey, ⟨some 3, some 10, none⟩)]

/-- Draft actuals of 1 set and 5 reps for `exItem`. -/
def exActHalf : List (String × Actual) := [(exKey, ⟨some 1, some 5, none⟩)]

/-- An unattempted repetition item with target 3 sets of 10 reps, for
the reduction-suggestion examples. -/
def uItem : SessionItem :=
  { type := .reps, exerciseId := "chairSquat", sets := some 3, reps := some 10,
    unit := "reps", rest := "60–90s" }

/-- An unattempted seconds-based time item with target 3 sets of 20
seconds, for the reduction-suggestion examples. -/
def tmItem : SessionItem :=
  { type := .time, exerciseId := "plank", sets := some 3, reps := some 20,
    unit := "s", rest := "45–60s" }

/-- A measured item whose targets (1 set, 1 rep) cannot be lowered. -/
def c4Item : SessionItem :=
  { type := .reps, exerciseId := "tableRow", sets := some 1, reps := some 1,
    unit := "reps", rest := "" }

/-- Another measured item with unlowerable targets (1 set, 1 rep). -/
def unItem : SessionItem :=
  { type := .reps, exerciseId := "deadBug", sets := some 1, reps := some 1,
    unit := "reps/lado", rest := "" }

/-- The proposal `suggestReduction` emits for an unattempted `uItem`. -/
def uSugg : Suggestion :=
  { itemKey := itemKeyOf uItem 0, exerciseId := "chairSquat",
    title := "Sentadilla a silla", fromT := ⟨3, 10, "reps"⟩, toT := ⟨2, 8, "reps"⟩ }

/-- The proposal `suggestReduction` emits for an unattempted `tmItem`. -/
def tmSugg : Suggestion :=
  { itemKey := itemKeyOf tmItem 0, exerciseId := "plank",
    title := "Plancha", fromT := ⟨3, 20, "s"⟩, toT := ⟨2, 15, "s"⟩ }

/-- A concrete full state with automatic progression off, for the
save-session frame witness. -/
def fs0 : FullState :=
  { appState := { week := 5, dayId := "B", smartProgression := false },
    customTargets := [],
    logs := { order := ["old1"], byId := [] },
    draft := { actualByItemId := [], rpe := 7, completed := false, date := "2026-01-01" } }

/-- A concrete full state with automatic progression on, for the
progression witness. -/
def fs1 : FullState :=
  { appState := { week := 5, dayId := "B", smartProgression := true },
    customTargets := [],
    logs := { order := [], byId := [] },
    draft := { actualByItemId := [], rpe := 7, completed := false, date := "2026-01-01" } }

/-! ## Helper lemmas -/

theorem clamp_div_max_zero (x ts : ℚ) (h : 0 < ts) :
    clamp (max 0 x / ts) 0 1 = clamp (x / ts) 0 1 := by
  rcases le_or_lt 0 x with hx | hx
  · rw [max_eq_right hx]
  · have hx2 : x / ts < 0 := div_neg_of_neg_of_pos hx h
    rw [max_eq_left (le_of_lt hx)]
    unfold clamp
    rw [zero_div, min_eq_right (show (0:ℚ) ≤ 1 by norm_num),
      min_eq_right (show x / ts ≤ 1 by linarith), max_self,
      max_eq_left (le_of_lt hx2)]

theorem one_le_effTargetSets (it : SessionItem) (t : Option Target) :
    (1 : ℚ) ≤ effTargetSets it t := le_max_left _ _

theorem one_le_effTargetReps (it : SessionItem) (t : Option Target) :
    (1 : ℚ) ≤ effTargetReps it t := le_max_left _ _

theorem itemScoreOf_eq_specContribution (a : List (String × Actual))
    (t : List (String × Target)) (idx : ℕ) (it : SessionItem) :
    itemScoreOf a t idx it = specContribution a t idx it := by
  simp only [itemScoreOf, specContribution]
  rw [clamp_div_max_zero _ _ (lt_of_lt_of_le one_pos (one_le_effTargetSets it _)),
    clamp_div_max_zero _ _ (lt_of_lt_of_le one_pos (one_le_effTargetReps it _))]
  ring

theorem scoreSession_foldl (a : List (String × Actual)) (t : List (String × Target)) :
    ∀ (l : List (ℕ × SessionItem)) (n : ℕ) (s : ℚ),
      l.foldl
        (fun (acc : ℕ × ℚ) p =>
          if p.2.type = ItemType.block then acc
          else (acc.1 + 1, acc.2 + itemScoreOf a t p.1 p.2)) (n, s)
      = (n + (l.filter (fun p => p.2.type ≠ ItemType.block)).length,
         s + ((l.filter (fun p => p.2.type ≠ ItemType.block)).map
            (fun p => itemScoreOf a t p.1 p.2)).sum) := by
  intro l
  induction l with
  | nil => intro n s; simp
  | cons hd tl ih =>
    intro n s
    by_cases hb : hd.2.type = ItemType.block
    · simp [hb, ih]
    · simp only [List.foldl_cons, List.filter_cons, hb, if_neg hb, decide_not,
        decide_eq_true_eq, ih]
      simp [hb, Prod.ext_iff]
      constructor
      · omega
      · ring

theorem isDeloadWeek_iff (w : ℕ) : isDeloadWeek w = true ↔ (w = 8 ∨ w = 16) := by
  simp [isDeloadWeek]

theorem isDeloadWeek_false {w : ℕ} (h8 : w ≠ 8) (h16 : w ≠ 16) : isDeloadWeek w = false := by
  simp [isDeloadWeek, h8, h16]


theorem repDelta_pos (it : SessionItem) : 0 < repDelta it := by
  unfold repDelta; split_ifs <;> norm_num

theorem max_one_sub_le {x d : ℚ} (hx : 1 ≤ x) (hd : 0 < d) : max 1 (x - d) ≤ x :=
  max_le hx (by linarith)

theorem max_one_sub_lt {x d : ℚ} (hx : 1 ≤ x) (hd : 0 < d) (hne : x ≠ 1) :
    max 1 (x - d) < x := by
  have h1 : 1 < x := lt_of_le_of_ne hx (Ne.symm hne)
  exact max_lt h1 (by linarith)

theorem max_one_sub_eq_iff {x d : ℚ} (hx : 1 ≤ x) (hd : 0 < d) :
    max 1 (x - d) = x ↔ x = 1 := by
  constructor
  · intro h
    by_contra hne
    exact absurd h (ne_of_lt (max_one_sub_lt hx hd hne))
  · intro h
    subst h
    exact max_eq_left (by linarith)

set_option maxHeartbeats 1000000 in
/-- Characterization of the `suggestReduction` loop body: it emits
exactly when the item is measured and under-performed on a component
whose effective target is not already 1, and the emitted proposal's
shape. -/
theorem reduceProposalFor_eq (a : List (String × Actual)) (t : List (String × Target))
    (idx : ℕ) (it : SessionItem) :
    reduceProposalFor a t idx it =
      if it.type = ItemType.block then none
      else if (¬ underSets a t idx it ∨ effSetsAt t idx it = 1) ∧
              (¬ underReps a t idx it ∨ effRepsAt t idx it = 1) then none
      else some
        { itemKey := itemKeyOf it idx, exerciseId := it.exerciseId,
          title := (exerciseTitle it.exerciseId).getD it.exerciseId,
          fromT := ⟨effSetsAt t idx it, effRepsAt t idx it, it.unit⟩,
          toT := ⟨(if underSets a t idx it then max 1 (effSetsAt t idx it - 1)
                   else effSetsAt t idx it),
                  (if underReps a t idx it then max 1 (effRepsAt t idx it - repDelta it)
                   else effRepsAt t idx it),
                  it.unit⟩ } := by
  by_cases hb : it.type = ItemType.block
  · simp [reduceProposalFor, hb]
  · have hts : (1:ℚ) ≤ effTargetSets it (List.lookup (itemKeyOf it idx) t) := le_max_left _ _
    have htr : (1:ℚ) ≤ effTargetReps it (List.lookup (itemKeyOf it idx) t) := le_max_left _ _
    have h01 : (0:ℚ) < 1 := by norm_num
    have h02 : (0:ℚ) < 2 := by norm_num
    have h05 : (0:ℚ) < 5 := by norm_num
    rw [if_neg hb]
    simp only [reduceProposalFor, if_neg hb, underSets, underReps, effSetsAt, effRepsAt,
      setsDoneAt, repsDoneAt, actualAt, repDelta]
    by_cases hsC : List.lookup (itemKeyOf it idx) a = none ∨
        ((List.lookup (itemKeyOf it idx) a).bind Actual.setsDone).getD 0 <
          effTargetSets it (List.lookup (itemKeyOf it idx) t)
    · by_cases hrC : List.lookup (itemKeyOf it idx) a = none ∨
          ((List.lookup (itemKeyOf it idx) a).bind Actual.repsDone).getD 0 <
            effTargetReps it (List.lookup (itemKeyOf it idx) t)
      · by_cases ht : it.type = ItemType.time <;> by_cases hu : it.unit = "min" <;>
          (simp only [ht, hu, if_true, if_false, eq_true hsC, eq_true hrC] <;>
           simp [max_one_sub_eq_iff hts h01, max_one_sub_eq_iff htr h01,
             max_one_sub_eq_iff htr h05, max_one_sub_eq_iff htr h02])
      · by_cases ht : it.type = ItemType.time <;> by_cases hu : it.unit = "min" <;>
          (simp only [ht, hu, if_true, if_false, eq_true hsC, eq_false hrC] <;>
           simp [max_one_sub_eq_iff hts h01, max_one_sub_eq_iff htr h01,
             max_one_sub_eq_iff htr h05, max_one_sub_eq_iff htr h02])
    · by_cases hrC : List.lookup (itemKeyOf it idx) a = none ∨
          ((List.lookup (itemKeyOf it idx) a).bind Actual.repsDone).getD 0 <
            effTargetReps it (List.lookup (itemKeyOf it idx) t)
      · by_cases ht : it.type = ItemType.time <;> by_cases hu : it.unit = "min" <;>
          (simp only [ht, hu, if_true, if_false, eq_false hsC, eq_true hrC] <;>
           simp [max_one_sub_eq_iff hts h01, max_one_sub_eq_iff htr h01,
             max_one_sub_eq_iff htr h05, max_one_sub_eq_iff htr h02])
      · by_cases ht : it.type = ItemType.time <;> by_cases hu : it.unit = "min" <;>
          (simp only [ht, hu, if_true, if_false, eq_false hsC, eq_false hrC] <;>
           simp [max_one_sub_eq_iff hts h01, max_one_sub_eq_iff htr h01,
             max_one_sub_eq_iff htr h05, max_one_sub_eq_iff htr h02])

theorem reduceProposalFor_none_iff (a : List (String × Actual)) (t : List (String × Target))
    (idx : ℕ) (it : SessionItem) :
    reduceProposalFor a t idx it = none ↔
      (it.type = ItemType.block ∨
       ((¬ underSets a t idx it ∨ effSetsAt t idx it = 1) ∧
        (¬ underReps a t idx it ∨ effRepsAt t idx it = 1))) := by
  rw [reduceProposalFor_eq]
  by_cases h1 : it.type = ItemType.block
  · simp [h1]
  · by_cases h2 : (¬ underSets a t idx it ∨ effSetsAt t idx it = 1) ∧
        (¬ underReps a t idx it ∨ effRepsAt t idx it = 1)
    · simp [h1, h2]
    · simp [h1, h2]

theorem reduceProposalFor_itemKey {a : List (String × Actual)} {t : List (String × Target)}
    {idx : ℕ} {it : SessionItem} {s : Suggestion}
    (h : reduceProposalFor a t idx it = some s) : s.itemKey = itemKeyOf it idx := by
  rw [reduceProposalFor_eq] at h
  by_cases h1 : it.type = ItemType.block
  · rw [if_pos h1] at h
    exact absurd h (by simp)
  · rw [if_neg h1] at h
    by_cases h2 : (¬ underSets a t idx it ∨ effSetsAt t idx it = 1) ∧
        (¬ underReps a t idx it ∨ effRepsAt t idx it = 1)
    · rw [if_pos h2] at h
      exact absurd h (by simp)
    · rw [if_neg h2] at h
      rw [← Option.some.inj h]

theorem suggestReduction_keys (a : List (String × Actual)) (t : List (String × Target)) :
    ∀ l : List (ℕ × SessionItem),
      (l.filterMap (fun p => reduceProposalFor a t p.1 p.2)).map Suggestion.itemKey
      = (l.filter (fun p => p.2.type ≠ ItemType.block ∧
           ((underSets a t p.1 p.2 ∧ effSetsAt t p.1 p.2 ≠ 1) ∨
            (underReps a t p.1 p.2 ∧ effRepsAt t p.1 p.2 ≠ 1)))).map
          (fun p => itemKeyOf p.2 p.1) := by
  intro l
  induction l with
  | nil => simp
  | cons hd tl ih =>
    rcases hOpt : reduceProposalFor a t hd.1 hd.2 with _ | s
    · have hcond : ¬ (hd.2.type ≠ ItemType.block ∧
          ((underSets a t hd.1 hd.2 ∧ effSetsAt t hd.1 hd.2 ≠ 1) ∨
           (underReps a t hd.1 hd.2 ∧ effRepsAt t hd.1 hd.2 ≠ 1))) := by
        have hn := (reduceProposalFor_none_iff a t hd.1 hd.2).mp hOpt
        tauto
      simp [List.filterMap_cons, List.filter_cons, hOpt, hcond, ih]
    · have hk := reduceProposalFor_itemKey hOpt
      have hcond : hd.2.type ≠ ItemType.block ∧
          ((underSets a t hd.1 hd.2 ∧ effSetsAt t hd.1 hd.2 ≠ 1) ∨
           (underReps a t hd.1 hd.2 ∧ effRepsAt t hd.1 hd.2 ≠ 1)) := by
        by_contra hc
        have hnone : reduceProposalFor a t hd.1 hd.2 = none := by
          rw [reduceProposalFor_none_iff]
          tauto
        rw [hOpt] at hnone
        exact Option.noConfusion hnone
      simp [List.filterMap_cons, List.filter_cons, hOpt, hcond, ih, hk]

theorem suggestReduction_uItem : suggestReduction [uItem] [] [] = [uSugg] := by
  have h : reduceProposalFor ([] : List (String × Actual)) ([] : List (String × Target)) 0 uItem
      = some uSugg := by
    norm_num [reduceProposalFor, uItem, uSugg, effTargetSets, effTargetReps,
      List.lookup, exerciseTitle, Suggestion.mk.injEq, TargetPair.mk.injEq,
      show ¬(ItemType.reps = ItemType.block) by decide,
      show ¬(ItemType.reps = ItemType.time) by decide]
  simp [suggestReduction, List.enum, List.enumFrom, h]

theorem suggestReduction_tmItem : suggestReduction [tmItem] [] [] = [tmSugg] := by
  have h : reduceProposalFor ([] : List (String × Actual)) ([] : List (String × Target)) 0 tmItem
      = some tmSugg := by
    norm_num [reduceProposalFor, tmItem, tmSugg, effTargetSets, effTargetReps,
      List.lookup, exerciseTitle, Suggestion.mk.injEq, TargetPair.mk.injEq,
      show ¬(ItemType.time = ItemType.block) by decide,
      show ¬("s" = "min") by decide]
  simp [suggestReduction, List.enum, List.enumFrom, h]

theorem lookup_filter_ne {α : Type} (k k2 : String) (h : k2 ≠ k) :
    ∀ m : List (String × α),
      List.lookup k2 (m.filter (fun p => p.1 ≠ k)) = List.lookup k2 m := by
  intro m
  induction m with
  | nil => simp
  | cons hd tl ih =>
    rcases hd with ⟨k1, v1⟩
    simp only [ne_eq, decide_not] at ih
    by_cases hk : k1 = k
    · have hne : (k2 == k1) = false := by
        subst hk
        exact beq_false_of_ne h
      simp [List.filter_cons, hk, List.lookup, hne, ih, beq_false_of_ne h]
    · by_cases he : k2 = k1
      · subst he
        simp [List.filter_cons, hk, List.lookup, ih]
      · have hne : (k2 == k1) = false := beq_false_of_ne he
        simp [List.filter_cons, hk, List.lookup, hne, ih, beq_false_of_ne h]

theorem objSet_lookup_self {α : Type} (m : List (String × α)) (k : String) (v : α) :
    List.lookup k (objSet m k v) = some v := by
  simp [objSet, List.lookup]

theorem objSet_lookup_ne {α : Type} (m : List (String × α)) (k k2 : String) (v : α)
    (h : k2 ≠ k) : List.lookup k2 (objSet m k v) = List.lookup k2 m := by
  have hne : (k2 == k) = false := beq_false_of_ne h
  simp only [objSet, List.lookup, hne]
  exact lookup_filter_ne k k2 h m

theorem clampN_week (w : ℕ) : clampN (w + 1) 1 20 = min 20 (w + 1) := by
  unfold clampN
  omega

/-! ## Claims -/

/-- C1: `scoreSession` computes exactly the spec's algorithm — block
items are ignored, each measured item contributes the unweighted average
of its two clamped ratios (missing actuals read as 0), compliancePct is
the mean contribution (0 when there are no measured items), the effort
penalty is 0.20 at effort ≥ 9, 0.10 at 8 ≤ effort < 9 and 0 otherwise,
and score = clamp(compliancePct − penalty, 0, 1).  In particular one
measured item with target {sets:3, reps:10} and actual {3,10} at effort
7 scores 1.0, and actual {1,5} gives compliancePct = 5/12. -/
theorem claim_C1 : ∀ (items : List SessionItem) (a : List (String × Actual))
    (t : List (String × Target)) (rpe : ℚ),
    scoreSession items a t rpe = specScoreSession items a t rpe ∧
    scoreSession [exItem] exActFull [] 7 = ⟨1, 1⟩ ∧
    (scoreSession [exItem] exActHalf [] 7).pct = 5 / 12 := by
  intro items a t rpe
  refine ⟨?_, ?_, ?_⟩
  · unfold scoreSession specScoreSession
    rw [scoreSession_foldl]
    simp only [Nat.zero_add, zero_add, itemScoreOf_eq_specContribution, ge_iff_le,
      ne_eq, decide_not]
    by_cases hE : items.enum.filter (fun p => !decide (p.2.type = ItemType.block)) = []
    · simp [hE]
    · have h1 : (items.enum.filter (fun p => !decide (p.2.type = ItemType.block))).length ≠ 0 :=
        fun h => hE (List.length_eq_zero.mp h)
      have h2 : List.map (fun p => specContribution a t p.1 p.2)
          (items.enum.filter (fun p => !decide (p.2.type = ItemType.block))) ≠ [] := by
        simpa [List.map_eq_nil_iff] using hE
      rw [if_neg h1, if_neg h2]
      simp [List.length_map]
  · have h1 : itemScoreOf exActFull ([] : List (String × Target)) 0 exItem = 1 := by
      norm_num [itemScoreOf, exItem, exActFull, exKey, effTargetSets, effTargetReps,
        List.lookup, clamp]
    have hne : exItem.type ≠ ItemType.block := by decide
    norm_num [scoreSession, List.enum, List.enumFrom, h1, hne, clamp, ScoreResult.mk.injEq]
  · have h1 : itemScoreOf exActHalf ([] : List (String × Target)) 0 exItem = 5 / 12 := by
      norm_num [itemScoreOf, exItem, exActHalf, exKey, effTargetSets, effTargetReps,
        List.lookup, clamp]
    have hne : exItem.type ≠ ItemType.block := by decide
    norm_num [scoreSession, List.enum, List.enumFrom, h1, hne]

/-- C7: for every week w in [1,20], the generated week plan's base set
count equals 2 for w in [1,4], 3 for w in [5,7] and [9,12], 4 for w in
[13,15] and [17,20], and on the deload weeks 8 and 16 it is one less
than the non-deload value for that range, floored at 2 (so 2 for week 8
and 3 for week 16). -/
theorem claim_C7 : ∀ w : ℕ, 1 ≤ w → w ≤ 20 →
    (buildWeekPlan w).sets =
      (if w ≤ 4 then 2 else if w = 8 then 2 else if w ≤ 12 then 3
       else if w = 16 then 3 else 4) := by
  intro w h1 h2
  have hb : (buildWeekPlan w).sets = setsForWeek w := rfl
  rw [hb]
  interval_cases w <;> decide

/-- Witness for C7 at week 8 (a deload week). -/
theorem claim_C7_witness : 1 ≤ 8 ∧ 8 ≤ 20 ∧ (buildWeekPlan 8).sets = 2 :=
  ⟨by decide, by decide, by simpa using claim_C7 8 (by decide) (by decide)⟩

/-- C8: for every week w in [1,20] and per-exercise base rep value b,
the repetition target equals b + floor((w-1)/2), except on deload weeks
8 and 16 where 2 is subtracted from that sum and the result is floored
at 4; in particular repsForWeek(1,6) = 6, repsForWeek(8,6) = 7 and
repsForWeek(20,6) = 15. -/
theorem claim_C8 : ∀ (w : ℕ) (b : ℤ), 1 ≤ w → w ≤ 20 →
    (repsForWeek w b =
      if w = 8 ∨ w = 16 then max 4 (b + (((w - 1) / 2 : ℕ) : ℤ) - 2)
      else b + (((w - 1) / 2 : ℕ) : ℤ)) ∧
    repsForWeek 1 6 = 6 ∧ repsForWeek 8 6 = 7 ∧ repsForWeek 20 6 = 15 := by
  intro w b h1 h2
  refine ⟨?_, by decide, by decide, by decide⟩
  by_cases h : w = 8 ∨ w = 16
  · have hd : isDeloadWeek w = true := (isDeloadWeek_iff w).2 h
    rw [if_pos h]
    simp only [repsForWeek, hd, if_true]
  · have h8 : w ≠ 8 := fun hh => h (Or.inl hh)
    have h16 : w ≠ 16 := fun hh => h (Or.inr hh)
    have hd : isDeloadWeek w = false := isDeloadWeek_false h8 h16
    rw [if_neg h]
    simp only [repsForWeek, hd, Bool.false_eq_true, if_false]

/-- Witness for C8 at week 8 with base 6. -/
theorem claim_C8_witness :
    1 ≤ 8 ∧ 8 ≤ 20 ∧ repsForWeek 8 6 = 7 :=
  ⟨by decide, by decide, (claim_C8 8 6 (by decide) (by decide)).2.2.1⟩

/-- C9: for every week w in [1,20] and base duration b in seconds, the
duration target equals b + floor((w-1)/2)*5 seconds, with 10 subtracted
and the result floored at 10 on deload weeks 8 and 16; and the
light-cardio march item instead targets clamp(8 + floor((w-1)/2), 8, 20)
minutes, reduced by 4 and floored at 6 on deload weeks. -/
theorem claim_C9 : ∀ (w : ℕ) (b : ℤ), 1 ≤ w → w ≤ 20 →
    (secondsForWeek w b =
      if w = 8 ∨ w = 16 then max 10 (b + (((w - 1) / 2 : ℕ) : ℤ) * 5 - 10)
      else b + (((w - 1) / 2 : ℕ) : ℤ) * 5) ∧
    (∀ s ∈ (buildWeekPlan w).sessions, ∀ it ∈ s.items,
      it.exerciseId = "marchInPlace" →
        it.reps = some
          (((if w = 8 ∨ w = 16
             then max 6 (max 8 (min 20 (8 + (((w - 1) / 2 : ℕ) : ℤ))) - 4)
             else max 8 (min 20 (8 + (((w - 1) / 2 : ℕ) : ℤ)))) : ℤ) : ℚ)) ∧
    (∃ s ∈ (buildWeekPlan w).sessions, ∃ it ∈ s.items, it.exerciseId = "marchInPlace") := by
  intro w b h1 h2
  refine ⟨?_, ?_, ?_⟩
  · by_cases h : w = 8 ∨ w = 16
    · have hd : isDeloadWeek w = true := (isDeloadWeek_iff w).2 h
      rw [if_pos h]
      simp only [secondsForWeek, hd, if_true]
    · have h8 : w ≠ 8 := fun hh => h (Or.inl hh)
      have h16 : w ≠ 16 := fun hh => h (Or.inr hh)
      have hd : isDeloadWeek w = false := isDeloadWeek_false h8 h16
      rw [if_neg h]
      simp only [secondsForWeek, hd, Bool.false_eq_true, if_false]
  · interval_cases w <;> decide
  · interval_cases w <;> decide

/-- Witness for C9 at week 16 with base 20 seconds. -/
theorem claim_C9_witness :
    1 ≤ 16 ∧ 16 ≤ 20 ∧ secondsForWeek 16 20 = 45 := by
  refine ⟨by decide, by decide, ?_⟩
  have h := (claim_C9 16 20 (by decide) (by decide)).1
  simpa using h

/-- C2: for every score value s, recommendationFromScore returns advance
when s ≥ 0.80, hold when 0.55 ≤ s < 0.80, and reduce when s < 0.55; in
particular s = 0.80 maps to advance, 0.799999 to hold, 0.55 to hold, and
0.549999 to reduce. -/
theorem recommendationFromScore_level (q r : ℚ) :
    (recommendationFromScore ⟨q, r⟩).level =
      (if 0.8 ≤ r then Level.advance else if 0.55 ≤ r then Level.hold else Level.reduce) := by
  by_cases h1 : (0.8 : ℚ) ≤ r
  · simp [recommendationFromScore, h1, ge_iff_le]
  · by_cases h2 : (0.55 : ℚ) ≤ r
    · simp [recommendationFromScore, h1, h2, ge_iff_le]
    · simp [recommendationFromScore, h1, h2, ge_iff_le]

/-- C2: for every score value s, recommendationFromScore returns advance
when s ≥ 0.80, hold when 0.55 ≤ s < 0.80, and reduce when s < 0.55; in
particular s = 0.80 maps to advance, 0.799999 to hold, 0.55 to hold, and
0.549999 to reduce. -/
theorem claim_C2 : ∀ p s : ℚ,
    ((recommendationFromScore ⟨p, s⟩).level = Level.advance ↔ 0.8 ≤ s) ∧
    ((recommendationFromScore ⟨p, s⟩).level = Level.hold ↔ 0.55 ≤ s ∧ s < 0.8) ∧
    ((recommendationFromScore ⟨p, s⟩).level = Level.reduce ↔ s < 0.55) ∧
    (recommendationFromScore ⟨0, 0.8⟩).level = Level.advance ∧
    (recommendationFromScore ⟨0, 0.799999⟩).level = Level.hold ∧
    (recommendationFromScore ⟨0, 0.55⟩).level = Level.hold ∧
    (recommendationFromScore ⟨0, 0.549999⟩).level = Level.reduce := by
  intro p s
  refine ⟨?_, ?_, ?_, ?_, ?_, ?_, ?_⟩
  · rw [recommendationFromScore_level]
    by_cases h1 : (0.8 : ℚ) ≤ s
    · simp [h1]
    · by_cases h2 : (0.55 : ℚ) ≤ s <;> simp [h1, h2]
  · rw [recommendationFromScore_level]
    by_cases h1 : (0.8 : ℚ) ≤ s
    · simp [h1, not_lt.mpr h1]
    · by_cases h2 : (0.55 : ℚ) ≤ s
      · simp [h1, h2, not_le.mp h1]
      · simp [h1, h2]
  · rw [recommendationFromScore_level]
    by_cases h1 : (0.8 : ℚ) ≤ s
    · have h3 : (0.55 : ℚ) ≤ s := le_trans (by norm_num) h1
      simp [h1, not_lt.mpr h3]
    · by_cases h2 : (0.55 : ℚ) ≤ s
      · simp [h1, h2, not_lt.mpr h2]
      · simp [h1, h2, not_le.mp h2]
  · rw [recommendationFromScore_level]; norm_num
  · rw [recommendationFromScore_level]; norm_num
  · rw [recommendationFromScore_level]; norm_num
  · rw [recommendationFromScore_level]; norm_num

/-- C3: every proposal emitted by suggestReduction belongs to a measured
item, its `from` is the item's effective targets, its proposed set count
is max(1, targetSets-1) when the item has no actual record or recorded
sets below target (unchanged otherwise), and its proposed rep/duration
value is the target minus repDelta (1 for minute time items, 5 for other
time items, 2 for repetition items) floored at 1 when the item has no
actual record or recorded reps below target (unchanged otherwise).  In
particular an unattempted repetition item with target {3,10} yields
{sets:2, reps:8} and an unattempted seconds time item with target {3,20}
yields {sets:2, reps:15}. -/
theorem claim_C3 : ∀ (items : List SessionItem) (a : List (String × Actual))
    (t : List (String × Target)),
    (∀ s ∈ suggestReduction items a t, ∃ p ∈ items.enum,
      p.2.type ≠ ItemType.block ∧
      s.fromT.sets = effSetsAt t p.1 p.2 ∧
      s.fromT.reps = effRepsAt t p.1 p.2 ∧
      s.toT.sets = (if underSets a t p.1 p.2 then max 1 (effSetsAt t p.1 p.2 - 1)
                    else effSetsAt t p.1 p.2) ∧
      s.toT.reps = (if underReps a t p.1 p.2 then max 1 (effRepsAt t p.1 p.2 - repDelta p.2)
                    else effRepsAt t p.1 p.2)) ∧
    suggestReduction [uItem] [] [] = [uSugg] ∧
    suggestReduction [tmItem] [] [] = [tmSugg] := by
  intro items a t
  refine ⟨?_, suggestReduction_uItem, suggestReduction_tmItem⟩
  intro s hs
  simp only [suggestReduction] at hs
  obtain ⟨p, hp, hf⟩ := List.mem_filterMap.mp hs
  refine ⟨p, hp, ?_⟩
  rw [reduceProposalFor_eq] at hf
  by_cases h1 : p.2.type = ItemType.block
  · rw [if_pos h1] at hf
    exact absurd hf (by simp)
  · rw [if_neg h1] at hf
    by_cases h2 : (¬ underSets a t p.1 p.2 ∨ effSetsAt t p.1 p.2 = 1) ∧
        (¬ underReps a t p.1 p.2 ∨ effRepsAt t p.1 p.2 = 1)
    · rw [if_pos h2] at hf
      exact absurd hf (by simp)
    · rw [if_neg h2] at hf
      rw [← Option.some.inj hf]
      exact ⟨h1, rfl, rfl, rfl, rfl⟩

/-- Witness for C3 at the unattempted repetition item. -/
theorem claim_C3_witness :
    ∃ p ∈ ([uItem] : List SessionItem).enum,
      p.2.type ≠ ItemType.block ∧
      uSugg.fromT.sets = effSetsAt [] p.1 p.2 ∧
      uSugg.fromT.reps = effRepsAt [] p.1 p.2 ∧
      uSugg.toT.sets = (if underSets [] [] p.1 p.2 then max 1 (effSetsAt [] p.1 p.2 - 1)
                        else effSetsAt [] p.1 p.2) ∧
      uSugg.toT.reps = (if underReps [] [] p.1 p.2 then max 1 (effRepsAt [] p.1 p.2 - repDelta p.2)
                        else effRepsAt [] p.1 p.2) := by
  have hmem : uSugg ∈ suggestReduction [uItem] [] [] := by
    rw [suggestReduction_uItem]
    exact List.mem_singleton_self _
  exact (claim_C3 [uItem] [] []).1 uSugg hmem

/-- C4 counterexample: `c4Item` is a measured item with no actual record
(so it under-performed in the claim's sense), yet `suggestReduction`
emits no proposal for it because its targets (1 set, 1 rep) cannot be
lowered — refuting "exactly one proposal per measured item that
under-performed". -/
theorem claim_C4_counterexample :
    c4Item.type ≠ ItemType.block ∧
    actualAt ([] : List (String × Actual)) 0 c4Item = none ∧
    suggestReduction [c4Item] [] [] = [] := by
  refine ⟨by decide, rfl, ?_⟩
  have h : reduceProposalFor ([] : List (String × Actual)) ([] : List (String × Target)) 0 c4Item
      = none := by
    rw [reduceProposalFor_none_iff]
    right
    constructor
    · right
      norm_num [effSetsAt, effTargetSets, c4Item, List.lookup]
    · right
      norm_num [effRepsAt, effTargetReps, c4Item, List.lookup]
  simp [suggestReduction, List.enum, List.enumFrom, h]

/-- C4 (amended): suggestReduction returns, in session item order,
exactly one proposal per measured item that under-performed on a
component whose effective target can still be lowered (sets
under-performance counts only when the effective target sets is not
already 1, and reps/duration under-performance only when the effective
target reps is not already 1); block items, items meeting both targets,
and under-performed items whose targets cannot be lowered produce no
proposal. -/
theorem claim_C4 : ∀ (items : List SessionItem) (a : List (String × Actual))
    (t : List (String × Target)),
    (suggestReduction items a t).map Suggestion.itemKey
      = (items.enum.filter (fun p => p.2.type ≠ ItemType.block ∧
           ((underSets a t p.1 p.2 ∧ effSetsAt t p.1 p.2 ≠ 1) ∨
            (underReps a t p.1 p.2 ∧ effRepsAt t p.1 p.2 ≠ 1)))).map
          (fun p => itemKeyOf p.2 p.1) := by
  intro items a t
  simp only [suggestReduction]
  exact suggestReduction_keys a t items.enum

/-- C10: every emitted proposal keeps both targets at least 1, never
raises either target, and lowers at least one strictly; an
under-performed measured item whose effective targets are already at
the floor (1 set, 1 rep) produces no suggestion at all. -/
theorem claim_C10 : ∀ (items : List SessionItem) (a : List (String × Actual))
    (t : List (String × Target)),
    (∀ s ∈ suggestReduction items a t,
      1 ≤ s.toT.sets ∧ s.toT.sets ≤ s.fromT.sets ∧
      1 ≤ s.toT.reps ∧ s.toT.reps ≤ s.fromT.reps ∧
      (s.toT.sets < s.fromT.sets ∨ s.toT.reps < s.fromT.reps)) ∧
    unItem.type ≠ ItemType.block ∧
    actualAt ([] : List (String × Actual)) 0 unItem = none ∧
    suggestReduction [unItem] [] [] = [] := by
  intro items a t
  refine ⟨?_, by decide, rfl, ?_⟩
  · intro s hs
    simp only [suggestReduction] at hs
    obtain ⟨p, hp, hf⟩ := List.mem_filterMap.mp hs
    rw [reduceProposalFor_eq] at hf
    by_cases h1 : p.2.type = ItemType.block
    · rw [if_pos h1] at hf
      exact absurd hf (by simp)
    · rw [if_neg h1] at hf
      by_cases h2 : (¬ underSets a t p.1 p.2 ∨ effSetsAt t p.1 p.2 = 1) ∧
          (¬ underReps a t p.1 p.2 ∨ effRepsAt t p.1 p.2 = 1)
      · rw [if_pos h2] at hf
        exact absurd hf (by simp)
      · rw [if_neg h2] at hf
        have hts : (1:ℚ) ≤ effSetsAt t p.1 p.2 := le_max_left _ _
        have htr : (1:ℚ) ≤ effRepsAt t p.1 p.2 := le_max_left _ _
        have h01 : (0:ℚ) < 1 := by norm_num
        replace h2 : (underSets a t p.1 p.2 ∧ effSetsAt t p.1 p.2 ≠ 1) ∨
            (underReps a t p.1 p.2 ∧ effRepsAt t p.1 p.2 ≠ 1) := by
          by_cases huS : underSets a t p.1 p.2
          · by_cases h1s : effSetsAt t p.1 p.2 = 1
            · by_cases huR : underReps a t p.1 p.2
              · by_cases h1r : effRepsAt t p.1 p.2 = 1
                · exact absurd ⟨Or.inr h1s, Or.inr h1r⟩ h2
                · exact Or.inr ⟨huR, h1r⟩
              · exact absurd ⟨Or.inr h1s, Or.inl huR⟩ h2
            · exact Or.inl ⟨huS, h1s⟩
          · by_cases huR : underReps a t p.1 p.2
            · by_cases h1r : effRepsAt t p.1 p.2 = 1
              · exact absurd ⟨Or.inl huS, Or.inr h1r⟩ h2
              · exact Or.inr ⟨huR, h1r⟩
            · exact absurd ⟨Or.inl huS, Or.inl huR⟩ h2
        rw [← Option.some.inj hf]
        refine ⟨?_, ?_, ?_, ?_, ?_⟩
        · by_cases hu : underSets a t p.1 p.2
          · rw [if_pos hu]
            exact le_max_left _ _
          · rw [if_neg hu]
            exact hts
        · by_cases hu : underSets a t p.1 p.2
          · rw [if_pos hu]
            exact max_one_sub_le hts h01
          · rw [if_neg hu]
        · by_cases hu : underReps a t p.1 p.2
          · rw [if_pos hu]
            exact le_max_left _ _
          · rw [if_neg hu]
            exact htr
        · by_cases hu : underReps a t p.1 p.2
          · rw [if_pos hu]
            exact max_one_sub_le htr (repDelta_pos p.2)
          · rw [if_neg hu]
        · rcases h2 with ⟨hu, hne⟩ | ⟨hu, hne⟩
          · left
            rw [if_pos hu]
            exact max_one_sub_lt hts h01 hne
          · right
            rw [if_pos hu]
            exact max_one_sub_lt htr (repDelta_pos p.2) hne
  · have h : reduceProposalFor ([] : List (String × Actual)) ([] : List (String × Target)) 0 unItem
        = none := by
      rw [reduceProposalFor_none_iff]
      right
      constructor
      · right
        norm_num [effSetsAt, effTargetSets, unItem, List.lookup]
      · right
        norm_num [effRepsAt, effTargetReps, unItem, List.lookup]
    simp [suggestReduction, List.enum, List.enumFrom, h]

/-- C5: with automatic progression enabled, saving moves the (week,
day) pointer by recommendation level — advance goes to the next day
letter, wrapping from D to A with the week incremented and clamped at
20; hold goes to the next day letter, wrapping from D to A of the same
week; reduce leaves the pointer unchanged and, when suggestions exist,
applies them to the current session's custom target overrides. -/
theorem claim_C5 : ∀ (fs : FullState) (newId createdAt today : String),
    fs.appState.smartProgression = true →
    (fs.appState.dayId = "A" ∨ fs.appState.dayId = "B" ∨ fs.appState.dayId = "C" ∨
      fs.appState.dayId = "D") →
    ((recOf fs).level = Level.advance →
       (saveSession fs newId createdAt today).appState.dayId
         = (if fs.appState.dayId = "D" then "A"
            else if fs.appState.dayId = "A" then "B"
            else if fs.appState.dayId = "B" then "C" else "D") ∧
       (saveSession fs newId createdAt today).appState.week
         = (if fs.appState.dayId = "D" then min 20 (fs.appState.week + 1)
            else fs.appState.week)) ∧
    ((recOf fs).level = Level.hold →
       (saveSession fs newId createdAt today).appState.dayId
         = (if fs.appState.dayId = "D" then "A"
            else if fs.appState.dayId = "A" then "B"
            else if fs.appState.dayId = "B" then "C" else "D") ∧
       (saveSession fs newId createdAt today).appState.week = fs.appState.week) ∧
    ((recOf fs).level = Level.reduce →
       (saveSession fs newId createdAt today).appState = fs.appState ∧
       (reduceSuggestionsOf fs ≠ [] →
         (saveSession fs newId createdAt today).customTargets
           = applySuggestions fs.appState.week fs.appState.dayId (reduceSuggestionsOf fs)
               fs.customTargets)) := by
  intro fs newId createdAt today hsm hday
  have hA : findDayIdx "A" = 0 := by decide
  have hB : findDayIdx "B" = 1 := by decide
  have hC : findDayIdx "C" = 2 := by decide
  have hD : findDayIdx "D" = 3 := by decide
  have dA : dayIdAt 1 = "B" := by decide
  have dB : dayIdAt 2 = "C" := by decide
  have dC : dayIdAt 3 = "D" := by decide
  have hlt0 : ((0:ℤ) < (DAYS.length : ℤ) - 1) := by decide
  have hlt1 : ((1:ℤ) < (DAYS.length : ℤ) - 1) := by decide
  have hlt2 : ((2:ℤ) < (DAYS.length : ℤ) - 1) := by decide
  have hnlt : ¬((3:ℤ) < (DAYS.length : ℤ) - 1) := by decide
  refine ⟨?_, ?_, ?_⟩
  · intro hlv
    rcases hday with h | h | h | h <;>
      simp [saveSession, hsm, hlv, h, hA, hB, hC, hD, dA, dB, dC, hlt0, hlt1, hlt2, hnlt,
        clampN_week]
  · intro hlv
    rcases hday with h | h | h | h <;>
      simp [saveSession, hsm, hlv, h, hA, hB, hC, hD, dA, dB, dC, hlt0, hlt1, hlt2, hnlt]
  · intro hlv
    constructor
    · simp [saveSession, hsm, hlv]
    · intro hne
      simp [saveSession, hsm, hlv, hne]

/-- Witness for C5 at a concrete state (week 5, day B, empty draft, so
the recommendation level is reduce). -/
theorem claim_C5_witness :
    ((recOf fs1).level = Level.advance →
       (saveSession fs1 "log1" "ts" "2026-01-02").appState.dayId
         = (if fs1.appState.dayId = "D" then "A"
            else if fs1.appState.dayId = "A" then "B"
            else if fs1.appState.dayId = "B" then "C" else "D") ∧
       (saveSession fs1 "log1" "ts" "2026-01-02").appState.week
         = (if fs1.appState.dayId = "D" then min 20 (fs1.appState.week + 1)
            else fs1.appState.week)) ∧
    ((recOf fs1).level = Level.hold →
       (saveSession fs1 "log1" "ts" "2026-01-02").appState.dayId
         = (if fs1.appState.dayId = "D" then "A"
            else if fs1.appState.dayId = "A" then "B"
            else if fs1.appState.dayId = "B" then "C" else "D") ∧
       (saveSession fs1 "log1" "ts" "2026-01-02").appState.week = fs1.appState.week) ∧
    ((recOf fs1).level = Level.reduce →
       (saveSession fs1 "log1" "ts" "2026-01-02").appState = fs1.appState ∧
       (reduceSuggestionsOf fs1 ≠ [] →
         (saveSession fs1 "log1" "ts" "2026-01-02").customTargets
           = applySuggestions fs1.appState.week fs1.appState.dayId (reduceSuggestionsOf fs1)
               fs1.customTargets)) :=
  claim_C5 fs1 "log1" "ts" "2026-01-02" rfl (Or.inr (Or.inl rfl))

/-- C6: with automatic progression disabled, saving changes neither the
pointer nor the custom targets; and on every save a new log entry
capturing score, compliance, recommendation, effort and all actuals is
prepended to the order, existing entries are unchanged, and the draft
resets to its empty defaults. -/
theorem claim_C6 : ∀ (fs : FullState) (newId createdAt today : String),
    (fs.appState.smartProgression = false →
      (saveSession fs newId createdAt today).appState = fs.appState ∧
      (saveSession fs newId createdAt today).customTargets = fs.customTargets) ∧
    (saveSession fs newId createdAt today).logs.order = newId :: fs.logs.order ∧
    List.lookup newId (saveSession fs newId createdAt today).logs.byId
      = some { id := newId, createdAt := createdAt, date := fs.draft.date,
               week := fs.appState.week, dayId := fs.appState.dayId,
               sessionTitle := (sessionOf fs.appState).title, rpe := fs.draft.rpe,
               score := (scoreOf fs).score, pct := (scoreOf fs).pct,
               recommendation := (recOf fs).level.str,
               actualByItemId := fs.draft.actualByItemId, completed := true } ∧
    (∀ k, k ≠ newId → List.lookup k (saveSession fs newId createdAt today).logs.byId
      = List.lookup k fs.logs.byId) ∧
    (saveSession fs newId createdAt today).draft
      = { actualByItemId := [], rpe := 7, completed := false, date := today } := by
  intro fs newId createdAt today
  refine ⟨?_, rfl, ?_, ?_, rfl⟩
  · intro hsm
    constructor
    · simp [saveSession, hsm]
    · simp [saveSession, hsm]
  · show List.lookup newId (objSet fs.logs.byId newId _) = _
    rw [objSet_lookup_self]
  · intro k hk
    show List.lookup k (objSet fs.logs.byId newId _) = _
    rw [objSet_lookup_ne _ _ _ _ hk]

/-- Witness for C6 at a concrete state with the toggle off. -/
theorem claim_C6_witness :
    ((saveSession fs0 "log1" "ts" "2026-01-02").appState = fs0.appState ∧
     (saveSession fs0 "log1" "ts" "2026-01-02").customTargets = fs0.customTargets) ∧
    (saveSession fs0 "log1" "ts" "2026-01-02").logs.order = "log1" :: fs0.logs.order ∧
    List.lookup "old1" (saveSession fs0 "log1" "ts" "2026-01-02").logs.byId
      = List.lookup "old1" fs0.logs.byId ∧
    (saveSession fs0 "log1" "ts" "2026-01-02").draft
      = { actualByItemId := [], rpe := 7, completed := false, date := "2026-01-02" } := by
  have h := claim_C6 fs0 "log1" "ts" "2026-01-02"
  exact ⟨h.1 rfl, h.2.1, h.2.2.2.1 "old1" (by decide), h.2.2.2.2⟩

/-- Witness for C10 at the unattempted repetition item's proposal. -/
theorem claim_C10_witness :
    1 ≤ uSugg.toT.sets ∧ uSugg.toT.sets ≤ uSugg.fromT.sets ∧
    1 ≤ uSugg.toT.reps ∧ uSugg.toT.reps ≤ uSugg.fromT.reps ∧
    (uSugg.toT.sets < uSugg.fromT.sets ∨ uSugg.toT.reps < uSugg.fromT.reps) := by
  have hmem : uSugg ∈ suggestReduction [uItem] [] [] := by
    rw [suggestReduction_uItem]
    exact List.mem_singleton_self _
  exact (claim_C10 [uItem] [] []).1 uSugg hmem

end Calistenia
